import Mathlib

/-!
Shallow embedding of the pool date-range reconciliation engine
(`app/pooling_management`: `crud.py`, `api.py`, `params.py`) and of the
date-clipping helper `adjust_dates` (`NotAvailableRuleComponent`).

Dates are modelled as natural numbers (days on a linear calendar);
Python `None` end dates become `Option.none`.  The remote booking RPC
(`check_booking_available`) is modelled as an opaque oracle function
from the request payload to the decoded response, and every embedded
operation additionally returns the ordered list of oracle calls it
performed, so that claims about which remote queries happen are
statable.
-/

namespace Sonar

/-- A pool date-range tuple: `start_date`, optional `end_date`
(`none` = open ended), `capacity`.  Mirrors `PoolDateRange` /
`PoolDateRangeCreate` as consumed by `validate_service_pool_changes`. -/
structure RangeTuple where
  start_date : Nat
  end_date : Option Nat
  capacity : Nat
deriving DecidableEq, Repr

/-- The JSON payload of one `check_booking_available` RPC
(`crud.py` lines 237-250). -/
structure OracleCall where
  pool_id : Nat
  start_date : Nat
  end_date : Option Nat
  capacity : Nat
  subscriber_id : Nat
  capacity_check : Bool
deriving DecidableEq, Repr

/-- The decoded response of the booking RPC, as read by the callers via
`.get("is_booking_exists", False)` and `.get("is_capacity_check", False)`. -/
structure OracleResponse where
  is_booking_exists : Bool
  is_capacity_check : Bool
deriving DecidableEq, Repr

/-- The remote booking service, modelled as an opaque pure function. -/
def Oracle : Type := OracleCall → OracleResponse

/-- A result dictionary as returned by the pooling operations: the keys
`dialogue`, `message` and `translation_key` are optional because the
Python dictionaries include them only on some paths. -/
structure ResultDict where
  success : Bool
  dialogue : Option Bool
  message : Option String
  translation_key : Option String
deriving DecidableEq, Repr

/-- Message constant from `params.py`. -/
def REDUCE_DATE_MESSAGE : String :=
  "There are bookings made during the period you have excluded from this date range using this service pool. Do you want to continue?"

/-- Message constant from `params.py` (the triple S is in the source). -/
def REDUCE_CAPACITY_MESSSAGE : String :=
  "Bookings already exceed the new capacity limit. Proceed with reducing capacity?"

/-- Message constant from `params.py`. -/
def REDUCED_DATE_CAPACITY_MESSAGE : String :=
  "Bookings exceed the new capacity for the excluded dates. Shall we proceed with reducing the date range and capacity?"

/-- Message constant from `params.py`. -/
def PAST_DATE_ERROR : String := "Dates in the past are not allowed"

/-- Message constant from `params.py`. -/
def DATE_VALIDATION : String := "Start date cannot be after end date"

/-- Message constant from `params.py`. -/
def DATA_INSERT_SUCCESSFUL : String := "Data inserted succesfully."

/-- Message constant from `params.py`. -/
def DATA_UPDATE_SUCCESSFUL : String := "Data updated succesfully."

/-- Message constant from `params.py`. -/
def POOL_NOT_FOUND : String := "Pool not found."

/-- Start-side excluded sub-range of one correlated position
(`crud.py` lines 560-566): when the start date changed, the half of the
old coverage that the move removes, as a single `(start, end)` pair. -/
def start_excluded (old_range date_range : RangeTuple) : List (Nat × Nat) :=
  if date_range.start_date ≠ old_range.start_date then
    if date_range.start_date < old_range.start_date then
      [(date_range.start_date, old_range.start_date)]
    else
      [(old_range.start_date, date_range.start_date)]
  else []

/-- End-side excluded sub-range of one correlated position
(`crud.py` lines 568-574): computed only when both end dates are bounded
(the Python guard is `end1 and end2 and end2 != end1`). -/
def end_excluded (old_range date_range : RangeTuple) : List (Nat × Nat) :=
  match old_range.end_date, date_range.end_date with
  | some e1, some e2 =>
    if e2 ≠ e1 then
      if e2 < e1 then [(e2, e1)] else [(e1, e2)]
    else []
  | _, _ => []

/-- The `excluded_date_ranges` list built at one correlated position:
start-side entry first, then end-side entry, as the Python appends. -/
def excluded_date_ranges (old_range date_range : RangeTuple) : List (Nat × Nat) :=
  start_excluded old_range date_range ++ end_excluded old_range date_range

/-- The `date_range_changed` flag of one correlated position
(`crud.py` lines 561, 569). -/
def date_range_changed (old_range date_range : RangeTuple) : Bool :=
  (date_range.start_date ≠ old_range.start_date) ||
  (match old_range.end_date, date_range.end_date with
   | some e1, some e2 => e2 ≠ e1
   | _, _ => false)

/-- The two basic date validations at the top of each loop iteration
(`crud.py` lines 545-551): `PAST_DATE_ERROR` when the bounded new end is
before today, else `DATE_VALIDATION` when the new start is after the
bounded new end; both are skipped when the new end is `None`. -/
def hard_date_error (current_date : Nat) (date_range : RangeTuple) : Option String :=
  match date_range.end_date with
  | some e2 =>
    if e2 < current_date then some PAST_DATE_ERROR
    else if date_range.start_date > e2 then some DATE_VALIDATION
    else none
  | none => none

/-- The loop over the excluded sub-ranges (`crud.py` lines 577-611):
for each sub-range, query the oracle at the old capacity; on a booking
hit, optionally re-query at the new capacity with the capacity-check
flag, and return the matching soft-reject message.  Returns the message
of the first conflicting sub-range (or `none`) together with the list
of oracle calls performed. -/
def check_excluded_ranges (oracle : Oracle) (pool_id subscriber_id : Nat)
    (old_capacity new_capacity : Nat) (is_capacity_reduced : Bool) :
    List (Nat × Nat) → Option String × List OracleCall
  | [] => (none, [])
  | (excluded_start, excluded_end) :: rest =>
    let booking_call : OracleCall :=
      ⟨pool_id, excluded_start, some excluded_end, old_capacity, subscriber_id, false⟩
    if (oracle booking_call).is_booking_exists then
      if is_capacity_reduced then
        let capacity_call : OracleCall :=
          ⟨pool_id, excluded_start, some excluded_end, new_capacity, subscriber_id, true⟩
        if (oracle capacity_call).is_capacity_check then
          (some REDUCED_DATE_CAPACITY_MESSAGE, [booking_call, capacity_call])
        else
          (some REDUCE_DATE_MESSAGE, [booking_call, capacity_call])
      else
        (some REDUCE_DATE_MESSAGE, [booking_call])
    else
      let tail := check_excluded_ranges oracle pool_id subscriber_id
        old_capacity new_capacity is_capacity_reduced rest
      (tail.1, booking_call :: tail.2)

/-- One iteration of the `validate_service_pool_changes` loop on a
correlated `(old_range, date_range)` pair (`crud.py` lines 540-630):
`some result` means the iteration returned early with that dictionary,
`none` means this position passed and the loop continues. -/
def validate_step (oracle : Oracle) (current_date pool_id subscriber_id : Nat)
    (old_range date_range : RangeTuple) : Option ResultDict × List OracleCall :=
  match hard_date_error current_date date_range with
  | some msg => (some ⟨false, some false, some msg, none⟩, [])
  | none =>
    let is_capacity_reduced : Bool := decide (date_range.capacity < old_range.capacity)
    let date_result :=
      if date_range_changed old_range date_range then
        check_excluded_ranges oracle pool_id subscriber_id
          old_range.capacity date_range.capacity is_capacity_reduced
          (excluded_date_ranges old_range date_range)
      else (none, [])
    match date_result.1 with
    | some msg => (some ⟨false, some true, some msg, none⟩, date_result.2)
    | none =>
      if is_capacity_reduced then
        let capacity_call : OracleCall :=
          ⟨pool_id, old_range.start_date, old_range.end_date,
           date_range.capacity, subscriber_id, true⟩
        let response := oracle capacity_call
        if response.is_booking_exists && response.is_capacity_check then
          (some ⟨false, some true, some REDUCE_CAPACITY_MESSSAGE, none⟩,
           date_result.2 ++ [capacity_call])
        else
          (none, date_result.2 ++ [capacity_call])
      else
        (none, date_result.2)

/-- The loop of `validate_service_pool_changes` over the zipped pairs:
the first early return wins; when no iteration returns, the function
returns the success dictionary (`crud.py` line 633). -/
def validate_pairs (oracle : Oracle) (current_date pool_id subscriber_id : Nat) :
    List (RangeTuple × RangeTuple) → ResultDict × List OracleCall
  | [] => (⟨true, some false, none, none⟩, [])
  | (old_range, date_range) :: rest =>
    match validate_step oracle current_date pool_id subscriber_id old_range date_range with
    | (some result, calls) => (result, calls)
    | (none, calls) =>
      let tail := validate_pairs oracle current_date pool_id subscriber_id rest
      (tail.1, calls ++ tail.2)

/-- Embedding of `validate_service_pool_changes` (`crud.py` lines
534-633).  The existing and proposed partitions are correlated
positionally via `zip`; `current_date` stands for
`datetime.now().date()`. -/
def validate_service_pool_changes (oracle : Oracle) (current_date : Nat)
    (existing_ranges date_ranges : List RangeTuple)
    (pool_id subscriber_id : Nat) : ResultDict × List OracleCall :=
  validate_pairs oracle current_date pool_id subscriber_id
    (existing_ranges.zip date_ranges)

/-- Outcome of `update_pool_date_ranges`: either the failing validation
dictionary is returned unchanged, or the old rows are deleted (by id)
and the new ranges inserted. -/
inductive UpdateOutcome where
  | rejected (result : ResultDict)
  | updated (deleted_ids : List Nat) (updated_data : List RangeTuple)
deriving DecidableEq, Repr

/-- Embedding of `update_pool_date_ranges` (`crud.py` lines 125-207):
when `check_date_ranges` is false the proposed ranges are first
reconciled against the existing rows, and a failing reconciliation is
returned as is; otherwise (bypass, or reconciliation passed) the
existing rows are deleted and the new ranges inserted. -/
def update_pool_date_ranges (oracle : Oracle) (current_date pool_id : Nat)
    (existing_ranges : List (Nat × RangeTuple)) (date_ranges : List RangeTuple)
    (subscriber_id : Nat) (check_date_ranges : Bool) :
    UpdateOutcome × List OracleCall :=
  if !check_date_ranges then
    let checked := validate_service_pool_changes oracle current_date
      (existing_ranges.map Prod.snd) date_ranges pool_id subscriber_id
    if checked.1.success = false then (.rejected checked.1, checked.2)
    else (.updated (existing_ranges.map Prod.fst) date_ranges, checked.2)
  else
    (.updated (existing_ranges.map Prod.fst) date_ranges, [])

/-- The far-future sentinel date substituted for a missing end date by
`convert_pool_date_ranges` (`crud.py` line 287, the string 9999-12-31). -/
def FAR_FUTURE : Nat := 99991231

/-- Embedding of `convert_pool_date_ranges` (`crud.py` lines 272-294):
each tuple becomes a `(start, end)` pair with the missing end mapped to
the far-future sentinel. -/
def convert_pool_date_ranges (pool_date_ranges : List RangeTuple) : List (Nat × Nat) :=
  pool_date_ranges.map (fun r => (r.start_date, r.end_date.getD FAR_FUTURE))

/-- All unordered pairs of a list, first element before the second in
list order. -/
def unordered_pairs : List (Nat × Nat) → List ((Nat × Nat) × (Nat × Nat))
  | [] => []
  | x :: xs => xs.map (fun y => (x, y)) ++ unordered_pairs xs

/-- Human-readable description of one overlap finding. -/
def overlap_message (a b : Nat × Nat) : String :=
  "Overlap between [" ++ toString a.1 ++ ", " ++ toString a.2 ++ "] and ["
    ++ toString b.1 ++ ", " ++ toString b.2 ++ "]"

/-- Modelled from the spec: `DateRangeChecker.find_overlapping_ranges`
(imported by `api.py` from a module outside this repository) flags, for
every unordered pair of ranges, an overlap when
`start_A <= end_B and start_B <= end_A`, one human-readable finding per
pair, without assuming the ranges sorted. -/
def find_overlapping_ranges (ranges : List (Nat × Nat)) : List String :=
  ((unordered_pairs ranges).filter
      (fun p => p.1.1 ≤ p.2.2 && p.2.1 ≤ p.1.2)).map
    (fun p => overlap_message p.1 p.2)

/-- Insertion of one range into a list sorted by start date. -/
def insert_by_start (x : Nat × Nat) : List (Nat × Nat) → List (Nat × Nat)
  | [] => [x]
  | y :: ys => if x.1 ≤ y.1 then x :: y :: ys else y :: insert_by_start x ys

/-- Insertion sort of ranges by start date. -/
def sort_by_start : List (Nat × Nat) → List (Nat × Nat)
  | [] => []
  | x :: xs => insert_by_start x (sort_by_start xs)

/-- Human-readable description of one gap finding. -/
def gap_message (a b : Nat × Nat) : String :=
  "Gap between " ++ toString a.2 ++ " and " ++ toString b.1

/-- Gap findings over an already sorted list of ranges: a gap between
consecutive ranges whose next start is more than one day after the
previous end. -/
def gaps_of_sorted : List (Nat × Nat) → List String
  | a :: b :: rest =>
    (if b.1 > a.2 + 1 then [gap_message a b] else []) ++ gaps_of_sorted (b :: rest)
  | _ => []

/-- Modelled from the spec: `DateRangeChecker.check_date_gaps` (imported
by `api.py` from a module outside this repository) sorts the ranges by
start date and flags, for each consecutive pair, a gap when the next
start is strictly more than one day after the previous end, one finding
per gap. -/
def check_date_gaps (ranges : List (Nat × Nat)) : List String :=
  gaps_of_sorted (sort_by_start ranges)

/-- Embedding of the `create_pool` route handler `create_pool_with_dates`
(`api.py` lines 24-72), restricted to the partition well-formedness
gate: a nonempty proposed partition is converted and checked for
overlaps, then gaps; the loops `for overlap in overlaps: return ...` and
`for gap in gaps: return ...` return on the first finding.  Persistence
and eventing succeed in this model.  With an empty `date_ranges` the
Python handler skips the `if pool.date_ranges:` assignment and then
reads the unassigned `db_date_ranges` at line 58; the generic `except`
turns that `UnboundLocalError` into a bare failure dictionary. -/
def create_pool_with_dates (date_ranges : List RangeTuple) : ResultDict :=
  if date_ranges ≠ [] then
    let converted := convert_pool_date_ranges date_ranges
    match find_overlapping_ranges converted with
    | overlap :: _ => ⟨false, none, some overlap, some "POOL_DATES_OVERLAPS"⟩
    | [] =>
      match check_date_gaps converted with
      | gap :: _ => ⟨false, none, some gap, some "POOL_DATE_GAPS"⟩
      | [] => ⟨true, none, some DATA_INSERT_SUCCESSFUL, some "DATA_INSERT_SUCCESSFUL"⟩
  else ⟨false, none,
    some "local variable db_date_ranges referenced before assignment", none⟩

/-- Embedding of the `update_pool` route handler `edit_pool` (`api.py`
lines 75-133): overlap then gap gate on a nonempty proposed partition
(first finding returned), pool lookup, then `update_pool_date_ranges`
whose failing dictionary is returned to the caller unchanged
(`api.py` lines 105-106).  With an empty `date_ranges` the Python
handler falls into the unbound `updated_date_range` read at line 108,
whose `NameError` the generic handler turns into a bare failure dict. -/
def edit_pool (oracle : Oracle) (current_date pool_id subscriber_id : Nat)
    (pool_found : Bool) (existing_ranges : List (Nat × RangeTuple))
    (date_ranges : List RangeTuple) (check_date_ranges : Bool) :
    ResultDict × List OracleCall :=
  if date_ranges ≠ [] then
    let converted := convert_pool_date_ranges date_ranges
    match find_overlapping_ranges converted with
    | overlap :: _ => (⟨false, none, some overlap, some "POOL_DATES_OVERLAPS"⟩, [])
    | [] =>
      match check_date_gaps converted with
      | gap :: _ => (⟨false, none, some gap, some "POOL_DATE_GAPS"⟩, [])
      | [] =>
        if !pool_found then
          (⟨false, none, some POOL_NOT_FOUND, some "POOL_NOT_FOUND"⟩, [])
        else
          match update_pool_date_ranges oracle current_date pool_id
              existing_ranges date_ranges subscriber_id check_date_ranges with
          | (.rejected result, calls) => (result, calls)
          | (.updated _ _, calls) =>
            (⟨true, none, some DATA_UPDATE_SUCCESSFUL, some "DATA_UPDATE_SUCCESSFUL"⟩,
             calls)
  else
    if !pool_found then
      (⟨false, none, some POOL_NOT_FOUND, some "POOL_NOT_FOUND"⟩, [])
    else
      (⟨false, none, some "name updated_date_range is not defined", none⟩, [])

/-- An input to `adjust_dates`: Python `Union[str, date]`. -/
inductive DateInput where
  | dt (d : Nat)
  | st (text : String)
deriving DecidableEq, Repr

/-- Normalisation of one `adjust_dates` input: a native date is kept, a
string goes through `datetime.strptime(_, "%Y-%m-%d")`, modelled by the
opaque library function `p`; `none` is the `ValueError` case. -/
def parse_input (p : String → Option Nat) : DateInput → Option Nat
  | .dt d => some d
  | .st text => p text

/-- Result dictionary of `adjust_dates`. -/
inductive AdjustResult where
  | success (start_date end_date : Nat)
  | failure (message translation_key : String)
deriving DecidableEq, Repr

/-- Message constant `STARTDATEGREATERTHANENDDATE`, imported by the
source from a params module outside this repository; claims refer to the
stable translation key, not to this display text. -/
def STARTDATEGREATERTHANENDDATE : String := "STARTDATEGREATERTHANENDDATE"

/-- Message constant `INVALIDDATEFORMAT`, imported by the source from a
params module outside this repository; claims refer to the stable
translation key, not to this display text. -/
def INVALIDDATEFORMAT : String := "INVALIDDATEFORMAT"

/-- Embedding of `adjust_dates` (`NotAvailableRuleComponent`, lines
135-205): the four inputs are normalised in order (a `ValueError`
anywhere yields the `INVALID_DATE_FORMAT` failure), then the request
bounds alone are compared, and on success the clipped window
`max(request_start, rule_start) .. min(request_end, rule_end)` is
returned, even when empty. -/
def adjust_dates (p : String → Option Nat)
    (rule_start_date rule_end_date request_start_date request_end_date : DateInput) :
    AdjustResult :=
  match parse_input p rule_start_date, parse_input p rule_end_date,
        parse_input p request_start_date, parse_input p request_end_date with
  | some rs, some re, some qs, some qe =>
    if qs > qe then
      .failure STARTDATEGREATERTHANENDDATE "START_DATE_GREATER_THAN_END_DATE"
    else
      .success (max qs rs) (min qe re)
  | _, _, _, _ => .failure INVALIDDATEFORMAT "INVALID_DATE_FORMAT"

/-! ### Helper lemmas -/

theorem date_range_changed_iff (o n : RangeTuple) :
    date_range_changed o n = true ↔ excluded_date_ranges o n ≠ [] := by
  rcases o with ⟨s1, e1, c1⟩
  rcases n with ⟨s2, e2, c2⟩
  unfold date_range_changed excluded_date_ranges start_excluded end_excluded
  cases e1 <;> cases e2 <;> by_cases hs : s2 = s1 <;>
    simp [hs] <;> split <;> simp_all

theorem excluded_nil_of_not_changed {o n : RangeTuple}
    (h : date_range_changed o n = false) : excluded_date_ranges o n = [] := by
  by_contra hne
  have hc : date_range_changed o n = true := (date_range_changed_iff o n).mpr hne
  rw [h] at hc
  exact Bool.noConfusion hc

theorem changed_of_excluded_eq {o n : RangeTuple} {x : Nat × Nat} {xs : List (Nat × Nat)}
    (h : excluded_date_ranges o n = x :: xs) : date_range_changed o n = true := by
  rw [date_range_changed_iff, h]
  exact List.cons_ne_nil x xs

theorem check_excluded_ranges_calls_shape (oracle : Oracle)
    (pool_id subscriber_id old_capacity new_capacity : Nat) (red : Bool) :
    ∀ (ranges : List (Nat × Nat)) (c : OracleCall),
      c ∈ (check_excluded_ranges oracle pool_id subscriber_id
            old_capacity new_capacity red ranges).2 →
      ∃ p ∈ ranges, c.start_date = p.1 ∧ c.end_date = some p.2 := by
  intro ranges
  induction ranges with
  | nil => intro c hc; simp [check_excluded_ranges] at hc
  | cons hd tl ih =>
    intro c hc
    rcases hd with ⟨es, ee⟩
    unfold check_excluded_ranges at hc
    by_cases hb :
        (oracle ⟨pool_id, es, some ee, old_capacity, subscriber_id, false⟩).is_booking_exists
    · simp only [hb, if_true] at hc
      cases red <;> simp at hc
      · rcases hc with rfl
        exact ⟨(es, ee), List.mem_cons_self _ _, rfl, rfl⟩
      · split at hc <;> simp at hc <;> rcases hc with rfl | rfl <;>
          exact ⟨(es, ee), List.mem_cons_self _ _, rfl, rfl⟩
    · simp only [hb] at hc
      simp at hc
      rcases hc with rfl | hmem
      · exact ⟨(es, ee), List.mem_cons_self _ _, rfl, rfl⟩
      · rcases ih c hmem with ⟨p, hp, h1, h2⟩
        exact ⟨p, List.mem_cons_of_mem _ hp, h1, h2⟩

theorem check_excluded_ranges_skip_prefix (oracle : Oracle)
    (pool_id subscriber_id old_capacity new_capacity : Nat) (red : Bool)
    (pre rest : List (Nat × Nat))
    (hpre : ∀ p ∈ pre,
      (oracle ⟨pool_id, p.1, some p.2, old_capacity, subscriber_id, false⟩).is_booking_exists
        = false) :
    check_excluded_ranges oracle pool_id subscriber_id
        old_capacity new_capacity red (pre ++ rest) =
      ((check_excluded_ranges oracle pool_id subscriber_id
          old_capacity new_capacity red rest).1,
        pre.map (fun p =>
          (⟨pool_id, p.1, some p.2, old_capacity, subscriber_id, false⟩ : OracleCall)) ++
        (check_excluded_ranges oracle pool_id subscriber_id
          old_capacity new_capacity red rest).2) := by
  induction pre with
  | nil => simp
  | cons hd tl ih =>
    rcases hd with ⟨es, ee⟩
    have hhd := hpre (es, ee) (List.mem_cons_self _ _)
    have htl : ∀ p ∈ tl,
        (oracle ⟨pool_id, p.1, some p.2, old_capacity, subscriber_id, false⟩).is_booking_exists
          = false :=
      fun p hp => hpre p (List.mem_cons_of_mem _ hp)
    simp only [List.cons_append]
    simp only [check_excluded_ranges]
    simp only [hhd, Bool.false_eq_true, if_false, ih htl, List.map_cons, List.cons_append]

theorem check_excluded_ranges_hit (oracle : Oracle)
    (pool_id subscriber_id old_capacity new_capacity : Nat) (red : Bool)
    (es ee : Nat) (rest : List (Nat × Nat))
    (hb : (oracle ⟨pool_id, es, some ee, old_capacity, subscriber_id, false⟩).is_booking_exists
      = true) :
    check_excluded_ranges oracle pool_id subscriber_id
        old_capacity new_capacity red ((es, ee) :: rest) =
      (some (if red &&
          (oracle ⟨pool_id, es, some ee, new_capacity, subscriber_id, true⟩).is_capacity_check
        then REDUCED_DATE_CAPACITY_MESSAGE else REDUCE_DATE_MESSAGE),
       (⟨pool_id, es, some ee, old_capacity, subscriber_id, false⟩ : OracleCall) ::
        (if red then
          [(⟨pool_id, es, some ee, new_capacity, subscriber_id, true⟩ : OracleCall)]
         else [])) := by
  unfold check_excluded_ranges
  simp only [hb, if_true]
  cases red <;> simp <;>
    cases hcc :
      (oracle ⟨pool_id, es, some ee, new_capacity, subscriber_id, true⟩).is_capacity_check <;>
    simp [hcc]

theorem zip_left_truncates {α β : Type} :
    ∀ (l1 : List α) (l2 extra : List β), l1.length ≤ l2.length →
      l1.zip (l2 ++ extra) = l1.zip l2 := by
  intro l1
  induction l1 with
  | nil => intro l2 extra _; simp
  | cons x xs ih =>
    intro l2 extra h
    cases l2 with
    | nil => simp at h
    | cons y ys =>
      simp only [List.cons_append, List.zip_cons_cons, List.cons.injEq, true_and]
      exact ih ys extra (Nat.le_of_succ_le_succ h)

theorem zip_right_truncates {α β : Type} :
    ∀ (l2 : List β) (l1 : List α) (extra : List β), l1.length ≤ l2.length →
      (l2 ++ extra).zip l1 = l2.zip l1 := by
  intro l2
  induction l2 with
  | nil =>
    intro l1 extra h
    have hl : l1 = [] := by
      cases l1 with
      | nil => rfl
      | cons a as => simp at h
    subst hl
    simp
  | cons y ys ih =>
    intro l1 extra h
    cases l1 with
    | nil => simp
    | cons x xs =>
      simp only [List.cons_append, List.zip_cons_cons, List.cons.injEq, true_and]
      exact ih xs extra (Nat.le_of_succ_le_succ h)

theorem validate_step_tk_none (oracle : Oracle)
    (current_date pool_id subscriber_id : Nat) (o n : RangeTuple) :
    (((validate_step oracle current_date pool_id subscriber_id o n).1).getD
        ⟨true, none, none, none⟩).translation_key = none := by
  unfold validate_step
  split
  · rfl
  · simp only
    split
    · rfl
    · split <;> split <;> rfl

/-! ### Claim theorems -/

/-- C1: at every correlated position of `validate_service_pool_changes`,
a changed start yields exactly one start-side excluded sub-range —
`(newStart, oldStart)` when the start moved earlier, `(oldStart,
newStart)` when it moved later — and a changed end (both ends bounded)
yields the analogous end-side sub-range; a position contributes at most
two excluded sub-ranges, and every oracle call of the date-change branch
ranges over one of them. -/
theorem claim1_excluded_subranges (o n : RangeTuple) :
    start_excluded o n =
      (if n.start_date = o.start_date then []
       else if n.start_date < o.start_date then [(n.start_date, o.start_date)]
       else [(o.start_date, n.start_date)])
  ∧ end_excluded o n =
      (match o.end_date, n.end_date with
       | some e1, some e2 =>
         if e2 = e1 then []
         else if e2 < e1 then [(e2, e1)] else [(e1, e2)]
       | _, _ => [])
  ∧ (excluded_date_ranges o n).length ≤ 2
  ∧ ∀ (oracle : Oracle) (pool_id subscriber_id : Nat) (red : Bool) (c : OracleCall),
      c ∈ (check_excluded_ranges oracle pool_id subscriber_id o.capacity n.capacity red
            (excluded_date_ranges o n)).2 →
      ∃ p ∈ excluded_date_ranges o n, c.start_date = p.1 ∧ c.end_date = some p.2 := by
  refine ⟨?_, ?_, ?_, ?_⟩
  · by_cases hs : n.start_date = o.start_date <;> simp [start_excluded, hs]
  · rcases ho : o.end_date with _ | e1 <;> rcases hn2 : n.end_date with _ | e2 <;>
      simp [end_excluded, ho, hn2]
  · have h1 : (start_excluded o n).length ≤ 1 := by
      unfold start_excluded
      split
      · split <;> simp
      · simp
    have h2 : (end_excluded o n).length ≤ 1 := by
      unfold end_excluded
      split
      · split
        · split <;> simp
        · simp
      · simp
    unfold excluded_date_ranges
    rw [List.length_append]
    omega
  · intro oracle pool_id subscriber_id red c hc
    exact check_excluded_ranges_calls_shape oracle pool_id subscriber_id
      o.capacity n.capacity red (excluded_date_ranges o n) c hc

/-- Witness for C1 at a concrete position: old range 5..10, new range
2..8 yields the two excluded sub-ranges (2,5) and (8,10), and a concrete
call of the date-change branch ranges over the first of them. -/
theorem claim1_witness :
    excluded_date_ranges ⟨5, some 10, 3⟩ ⟨2, some 8, 3⟩ = [(2, 5), (8, 10)]
  ∧ ∃ p ∈ excluded_date_ranges ⟨5, some 10, 3⟩ ⟨2, some 8, 3⟩,
      (⟨7, 2, some 5, 3, 9, false⟩ : OracleCall).start_date = p.1 ∧
      (⟨7, 2, some 5, 3, 9, false⟩ : OracleCall).end_date = some p.2 := by
  constructor
  · rfl
  · exact (claim1_excluded_subranges ⟨5, some 10, 3⟩ ⟨2, some 8, 3⟩).2.2.2
      (fun _ => ⟨false, false⟩) 7 9 false ⟨7, 2, some 5, 3, 9, false⟩ (by decide)

/-- C4 counterexample: an unchanged partition whose (unchanged) end date
lies before today is NOT accepted — the claim says reconciliation of an
unchanged partition always returns Accept, but the code returns the
`PAST_DATE_ERROR` hard rejection on this input. -/
theorem claim4_counterexample :
    validate_service_pool_changes (fun _ => ⟨false, false⟩) 10
        [⟨0, some 1, 5⟩] [⟨0, some 1, 5⟩] 1 1
      = (⟨false, some false, some PAST_DATE_ERROR, none⟩, []) := by
  rfl

/-- C4 (amended): whenever at every correlated position the dates are
unchanged, the capacity does not decrease, and the proposed tuple passes
the basic date validations (a bounded end is not before today and not
before its start), reconciliation returns the success dictionary and
performs zero oracle calls. -/
theorem claim4_amended (oracle : Oracle) (current_date pool_id subscriber_id : Nat)
    (existing_ranges date_ranges : List RangeTuple)
    (h : ∀ p ∈ existing_ranges.zip date_ranges,
      p.1.start_date = p.2.start_date ∧ p.1.end_date = p.2.end_date ∧
      p.1.capacity ≤ p.2.capacity ∧
      ∀ e, p.2.end_date = some e → current_date ≤ e ∧ p.2.start_date ≤ e) :
    validate_service_pool_changes oracle current_date existing_ranges date_ranges
      pool_id subscriber_id = (⟨true, some false, none, none⟩, []) := by
  unfold validate_service_pool_changes
  revert h
  generalize existing_ranges.zip date_ranges = l
  induction l with
  | nil => intro _; rfl
  | cons pr rest ih =>
    intro h
    rcases pr with ⟨o, n⟩
    obtain ⟨hstart, hend, hcap, hfut⟩ := h (o, n) (List.mem_cons_self _ _)
    dsimp only at hstart hend hcap hfut
    have hrest := fun p hp => h p (List.mem_cons_of_mem _ hp)
    have hhd : hard_date_error current_date n = none := by
      rcases hne : n.end_date with _ | e
      · unfold hard_date_error
        rw [hne]
      · obtain ⟨h1, h2⟩ := hfut e hne
        unfold hard_date_error
        rw [hne]
        show (if e < current_date then some PAST_DATE_ERROR
          else if n.start_date > e then some DATE_VALIDATION else none) = none
        rw [if_neg (by omega), if_neg (by omega)]
    have hch : date_range_changed o n = false := by
      unfold date_range_changed
      rw [hstart, hend]
      rcases n.end_date with _ | e <;> simp
    have hred : decide (n.capacity < o.capacity) = false := by
      simp only [decide_eq_false_iff_not, Nat.not_lt]
      exact hcap
    have hstep : validate_step oracle current_date pool_id subscriber_id o n
        = (none, []) := by
      simp [validate_step, hhd, hch, hred]
    simp only [validate_pairs, hstep]
    rw [ih hrest]
    rfl

/-- Witness for C4 (amended) at a concrete unchanged partition. -/
theorem claim4_witness :
    validate_service_pool_changes (fun _ => ⟨true, true⟩) 5
        [⟨0, some 10, 5⟩, ⟨11, none, 2⟩] [⟨0, some 10, 5⟩, ⟨11, none, 7⟩] 1 1
      = (⟨true, some false, none, none⟩, []) := by
  exact claim4_amended (fun _ => ⟨true, true⟩) 5 1 1
    [⟨0, some 10, 5⟩, ⟨11, none, 2⟩] [⟨0, some 10, 5⟩, ⟨11, none, 7⟩] (by decide)

/-- C5 counterexample: the proposed tuple at position 1 has end date 1,
which is before today (5), yet the reconciliation returns the
`REDUCE_DATE_MESSAGE` soft rejection coming from position 0 and performs
one oracle call first — contradicting the claim that a past end date
anywhere yields the `PAST_DATE_ERROR` hard rejection before any oracle
call. -/
theorem claim5_counterexample :
    validate_service_pool_changes (fun _ => ⟨true, false⟩) 5
        [⟨0, some 10, 5⟩, ⟨0, some 10, 5⟩] [⟨1, some 10, 5⟩, ⟨0, some 1, 5⟩] 1 1
      = (⟨false, some true, some REDUCE_DATE_MESSAGE, none⟩,
         [⟨1, 0, some 1, 5, 1, false⟩]) := by
  rfl

/-- C5 (amended): the past-date and inversion checks are evaluated per
correlated position, before any oracle call of that position: a bounded
proposed end before today yields the `PAST_DATE_ERROR` hard rejection
(dialogue false) and an inverted bounded range the `DATE_VALIDATION`
hard rejection, with no oracle call contributed by that position; when
the violating tuple sits at the first zipped position the whole call
returns that hard rejection with zero oracle calls.  (A violation at a
later position can instead be preempted by an earlier position's soft
rejection, after earlier oracle calls.) -/
theorem claim5_amended (oracle : Oracle) (current_date pool_id subscriber_id : Nat)
    (o n : RangeTuple) (e : Nat)
    (existing_rest proposed_rest : List RangeTuple)
    (hn : n.end_date = some e)
    (hbad : e < current_date ∨ e < n.start_date) :
    validate_step oracle current_date pool_id subscriber_id o n
      = (some ⟨false, some false,
          some (if e < current_date then PAST_DATE_ERROR else DATE_VALIDATION), none⟩, [])
  ∧ validate_service_pool_changes oracle current_date
        (o :: existing_rest) (n :: proposed_rest) pool_id subscriber_id
      = (⟨false, some false,
          some (if e < current_date then PAST_DATE_ERROR else DATE_VALIDATION), none⟩, []) := by
  have hhd : hard_date_error current_date n
      = some (if e < current_date then PAST_DATE_ERROR else DATE_VALIDATION) := by
    unfold hard_date_error
    rw [hn]
    by_cases hlt : e < current_date
    · simp [hlt]
    · have hgt : n.start_date > e := by
        rcases hbad with h1 | h2
        · exact absurd h1 hlt
        · exact h2
      simp [hlt, hgt]
  have hstep : validate_step oracle current_date pool_id subscriber_id o n
      = (some ⟨false, some false,
          some (if e < current_date then PAST_DATE_ERROR else DATE_VALIDATION), none⟩, []) := by
    simp [validate_step, hhd]
  refine ⟨hstep, ?_⟩
  unfold validate_service_pool_changes
  simp only [List.zip_cons_cons, validate_pairs, hstep]

/-- Witness for C5 (amended) with the violating tuple first: end 1 is
before today 5, so the whole call hard-rejects with no oracle call. -/
theorem claim5_witness :
    validate_service_pool_changes (fun _ => ⟨true, true⟩) 5
        [⟨0, some 10, 5⟩] [⟨0, some 1, 5⟩] 1 1
      = (⟨false, some false,
          some (if 1 < 5 then PAST_DATE_ERROR else DATE_VALIDATION), none⟩, []) := by
  exact (claim5_amended (fun _ => ⟨true, true⟩) 5 1 1
    ⟨0, some 10, 5⟩ ⟨0, some 1, 5⟩ 1 [] [] rfl (Or.inl (by decide))).2

/-- C6: with the bypass flag `check_date_ranges = true`,
`update_pool_date_ranges` performs no reconciliation and no oracle call,
and proceeds to delete the old rows and insert the new ranges, whatever
the diff between the two partitions. -/
theorem claim6_bypass_flag (oracle : Oracle) (current_date pool_id subscriber_id : Nat)
    (existing_ranges : List (Nat × RangeTuple)) (date_ranges : List RangeTuple) :
    update_pool_date_ranges oracle current_date pool_id existing_ranges date_ranges
        subscriber_id true
      = (.updated (existing_ranges.map Prod.fst) date_ranges, []) := by
  rfl

/-- C7: when all four `adjust_dates` inputs normalise to dates, the call
fails with the `START_DATE_GREATER_THAN_END_DATE` key exactly when the
request bounds alone are inverted (checked before clipping, rule bounds
irrelevant), and otherwise returns the clip `max(requestStart,
ruleStart) .. min(requestEnd, ruleEnd)`, which may be empty without
being an error; any input that fails to parse yields the
`INVALID_DATE_FORMAT` key instead. -/
theorem claim7_adjust_dates (p : String → Option Nat)
    (rule_start rule_end request_start request_end : DateInput) (rs re qs qe : Nat)
    (h1 : parse_input p rule_start = some rs)
    (h2 : parse_input p rule_end = some re)
    (h3 : parse_input p request_start = some qs)
    (h4 : parse_input p request_end = some qe) :
    adjust_dates p rule_start rule_end request_start request_end
      = (if qs > qe then
          .failure STARTDATEGREATERTHANENDDATE "START_DATE_GREATER_THAN_END_DATE"
        else .success (max qs rs) (min qe re))
  ∧ ∀ a b c d : DateInput,
      (parse_input p a = none ∨ parse_input p b = none ∨
       parse_input p c = none ∨ parse_input p d = none) →
      adjust_dates p a b c d = .failure INVALIDDATEFORMAT "INVALID_DATE_FORMAT" := by
  constructor
  · unfold adjust_dates
    rw [h1, h2, h3, h4]
  · intro a b c d hnone
    unfold adjust_dates
    rcases hpa : parse_input p a with _ | va <;>
      rcases hpb : parse_input p b with _ | vb <;>
      rcases hpc : parse_input p c with _ | vc <;>
      rcases hpd : parse_input p d with _ | vd <;>
      simp_all

/-- Witness for C7: a concrete clip 3..8 against rule 1..10 succeeds,
and a non-parsing string yields the `INVALID_DATE_FORMAT` key. -/
theorem claim7_witness :
    adjust_dates (fun _ => none) (.dt 1) (.dt 10) (.dt 3) (.dt 8) = .success 3 8
  ∧ adjust_dates (fun _ => none) (.st "x") (.dt 10) (.dt 3) (.dt 8)
      = .failure INVALIDDATEFORMAT "INVALID_DATE_FORMAT" := by
  have h := claim7_adjust_dates (fun _ => none) (.dt 1) (.dt 10) (.dt 3) (.dt 8)
    1 10 3 8 rfl rfl rfl rfl
  constructor
  · have h1 := h.1
    norm_num at h1
    exact h1
  · exact h.2 (.st "x") (.dt 10) (.dt 3) (.dt 8) (Or.inl rfl)

/-- C2: at a position whose date range changed, for the first excluded
sub-range whose old-capacity oracle query reports bookings (after any
earlier sub-ranges reported none), the iteration returns a soft
rejection (success false, dialogue true): `REDUCED_DATE_CAPACITY_MESSAGE`
when the capacity was also reduced and the new-capacity re-query with
the capacity-check flag reports the capacity exceeded, otherwise
`REDUCE_DATE_MESSAGE` — bookings in the excluded window suffice,
independent of capacity.  The trace lists the old-capacity query per
sub-range and the one re-query at the new capacity. -/
theorem claim2_date_conflict_soft_reject (oracle : Oracle)
    (current_date pool_id subscriber_id : Nat) (o n : RangeTuple)
    (pre rest : List (Nat × Nat)) (es ee : Nat)
    (hhd : hard_date_error current_date n = none)
    (hex : excluded_date_ranges o n = pre ++ (es, ee) :: rest)
    (hpre : ∀ p ∈ pre,
      (oracle ⟨pool_id, p.1, some p.2, o.capacity, subscriber_id, false⟩).is_booking_exists
        = false)
    (hb : (oracle ⟨pool_id, es, some ee, o.capacity, subscriber_id, false⟩).is_booking_exists
        = true) :
    validate_step oracle current_date pool_id subscriber_id o n
      = (some ⟨false, some true,
          some (if decide (n.capacity < o.capacity) &&
              (oracle ⟨pool_id, es, some ee, n.capacity, subscriber_id, true⟩).is_capacity_check
            then REDUCED_DATE_CAPACITY_MESSAGE else REDUCE_DATE_MESSAGE), none⟩,
         pre.map (fun p =>
           (⟨pool_id, p.1, some p.2, o.capacity, subscriber_id, false⟩ : OracleCall)) ++
         (⟨pool_id, es, some ee, o.capacity, subscriber_id, false⟩ : OracleCall) ::
         (if decide (n.capacity < o.capacity) then
           [(⟨pool_id, es, some ee, n.capacity, subscriber_id, true⟩ : OracleCall)]
          else [])) := by
  have hch : date_range_changed o n = true := by
    rw [date_range_changed_iff, hex]
    simp
  have hcheck := check_excluded_ranges_skip_prefix oracle pool_id subscriber_id
    o.capacity n.capacity (decide (n.capacity < o.capacity)) pre ((es, ee) :: rest) hpre
  have hhit := check_excluded_ranges_hit oracle pool_id subscriber_id
    o.capacity n.capacity (decide (n.capacity < o.capacity)) es ee rest hb
  rw [hhit] at hcheck
  unfold validate_step
  simp only [hhd, hch, if_true, hex, hcheck]

/-- Witness for C2 at a concrete position: old range 5..10 capacity 4,
new range 2..8 capacity 3; the first excluded sub-range (2,5) has no
bookings, the second (8,10) does, and the new capacity is exceeded
there, so the iteration soft-rejects with
`REDUCED_DATE_CAPACITY_MESSAGE` after three oracle calls. -/
theorem claim2_witness :
    validate_step
        (fun c => ⟨decide (c.start_date = 8) && !c.capacity_check, true⟩) 3 1 1
        ⟨5, some 10, 4⟩ ⟨2, some 8, 3⟩
      = (some ⟨false, some true, some REDUCED_DATE_CAPACITY_MESSAGE, none⟩,
         [⟨1, 2, some 5, 4, 1, false⟩, ⟨1, 8, some 10, 4, 1, false⟩,
          ⟨1, 8, some 10, 3, 1, true⟩]) := by
  have h := claim2_date_conflict_soft_reject
    (fun c => ⟨decide (c.start_date = 8) && !c.capacity_check, true⟩) 3 1 1
    ⟨5, some 10, 4⟩ ⟨2, some 8, 3⟩ [(2, 5)] [] 8 10
    (by rfl) (by rfl) (by decide) (by decide)
  exact h.trans (by decide)

/-- C3: at a position where the excluded-sub-range loop produced no
rejection and the capacity was reduced, the iteration performs exactly
one more oracle call, over the entire original range (old start, old
end) at the new capacity with the capacity-check flag, and soft-rejects
with `REDUCE_CAPACITY_MESSSAGE` exactly when that response reports both
that bookings exist and that the reduced capacity is exceeded. -/
theorem claim3_capacity_reduction (oracle : Oracle)
    (current_date pool_id subscriber_id : Nat) (o n : RangeTuple)
    (hhd : hard_date_error current_date n = none)
    (hcap : n.capacity < o.capacity)
    (hnoconf : (check_excluded_ranges oracle pool_id subscriber_id o.capacity n.capacity
        true (excluded_date_ranges o n)).1 = none) :
    validate_step oracle current_date pool_id subscriber_id o n
      = ((if (oracle ⟨pool_id, o.start_date, o.end_date, n.capacity, subscriber_id,
                true⟩).is_booking_exists &&
             (oracle ⟨pool_id, o.start_date, o.end_date, n.capacity, subscriber_id,
                true⟩).is_capacity_check
           then some ⟨false, some true, some REDUCE_CAPACITY_MESSSAGE, none⟩ else none),
         (check_excluded_ranges oracle pool_id subscriber_id o.capacity n.capacity true
            (excluded_date_ranges o n)).2 ++
          [⟨pool_id, o.start_date, o.end_date, n.capacity, subscriber_id, true⟩]) := by
  have hred : decide (n.capacity < o.capacity) = true := by
    simp only [decide_eq_true_eq]
    exact hcap
  have hdr : (if date_range_changed o n = true then
        check_excluded_ranges oracle pool_id subscriber_id o.capacity n.capacity true
          (excluded_date_ranges o n)
      else ((none : Option String), ([] : List OracleCall)))
      = check_excluded_ranges oracle pool_id subscriber_id o.capacity n.capacity true
          (excluded_date_ranges o n) := by
    by_cases hch : date_range_changed o n = true
    · simp [hch]
    · have hchf : date_range_changed o n = false := by
        simpa using hch
      rw [excluded_nil_of_not_changed hchf]
      simp [hchf, check_excluded_ranges]
  unfold validate_step
  simp only [hhd, hred, hdr, hnoconf]
  cases hresp : (oracle ⟨pool_id, o.start_date, o.end_date, n.capacity, subscriber_id,
      true⟩).is_booking_exists &&
    (oracle ⟨pool_id, o.start_date, o.end_date, n.capacity, subscriber_id,
      true⟩).is_capacity_check <;>
    simp_all

/-- Witness for C3: a pure capacity reduction 5 → 3 on the unchanged
range 0..10, with an oracle reporting the reduced capacity exceeded,
soft-rejects with `REDUCE_CAPACITY_MESSSAGE` after exactly one
capacity-check call over the original range. -/
theorem claim3_witness :
    validate_step (fun c => ⟨true, c.capacity_check⟩) 5 1 1
        ⟨0, some 10, 5⟩ ⟨0, some 10, 3⟩
      = (some ⟨false, some true, some REDUCE_CAPACITY_MESSSAGE, none⟩,
         [⟨1, 0, some 10, 3, 1, true⟩]) := by
  have h := claim3_capacity_reduction (fun c => ⟨true, c.capacity_check⟩) 5 1 1
    ⟨0, some 10, 5⟩ ⟨0, some 10, 3⟩ (by rfl) (by decide) (by rfl)
  exact h.trans (by decide)

/-- C8 counterexample: a reconciliation failure (here `PAST_DATE_ERROR`)
reaches the caller of the update endpoint as a dictionary whose
`translation_key` is absent — the claim that every failure on the
reconciliation path carries a `translation_key` alongside its message is
false. -/
theorem claim8_counterexample :
    edit_pool (fun _ => ⟨false, false⟩) 5 1 1 true
        [(1, ⟨0, some 10, 5⟩)] [⟨0, some 1, 5⟩] false
      = (⟨false, some false, some PAST_DATE_ERROR, none⟩, []) := by
  rfl

/-- Translation keys are never set by the reconciliation engine. -/
theorem validate_pairs_tk_none (oracle : Oracle)
    (current_date pool_id subscriber_id : Nat) :
    ∀ l : List (RangeTuple × RangeTuple),
      ((validate_pairs oracle current_date pool_id subscriber_id l).1).translation_key
        = none := by
  intro l
  induction l with
  | nil => rfl
  | cons pr rest ih =>
    rcases pr with ⟨o, n⟩
    rcases hstep : validate_step oracle current_date pool_id subscriber_id o n
      with ⟨res, calls⟩
    rcases res with _ | r
    · simp only [validate_pairs, hstep]
      exact ih
    · simp only [validate_pairs, hstep]
      have hkey := validate_step_tk_none oracle current_date pool_id subscriber_id o n
      rw [hstep] at hkey
      simpa using hkey

/-- C8 (amended): the failure dictionaries of the reconciliation path
carry no `translation_key` at all — every result of
`validate_service_pool_changes` has `translation_key` absent, and
`edit_pool` forwards a failing reconciliation result to the caller
unchanged — whereas the overlap/gap/not-found failures and the success
responses do carry translation keys. -/
theorem claim8_amended :
    (∀ (oracle : Oracle) (current_date : Nat)
       (existing_ranges date_ranges : List RangeTuple) (pool_id subscriber_id : Nat),
      ((validate_service_pool_changes oracle current_date existing_ranges date_ranges
          pool_id subscriber_id).1).translation_key = none)
  ∧ ∀ (oracle : Oracle) (current_date pool_id subscriber_id : Nat)
      (existing_ranges : List (Nat × RangeTuple)) (date_ranges : List RangeTuple)
      (flag : Bool) (r : ResultDict) (calls : List OracleCall),
      date_ranges ≠ [] →
      find_overlapping_ranges (convert_pool_date_ranges date_ranges) = [] →
      check_date_gaps (convert_pool_date_ranges date_ranges) = [] →
      update_pool_date_ranges oracle current_date pool_id existing_ranges date_ranges
        subscriber_id flag = (.rejected r, calls) →
      edit_pool oracle current_date pool_id subscriber_id true existing_ranges
        date_ranges flag = (r, calls) := by
  constructor
  · intro oracle current_date existing_ranges date_ranges pool_id subscriber_id
    exact validate_pairs_tk_none oracle current_date pool_id subscriber_id _
  · intro oracle current_date pool_id subscriber_id existing_ranges date_ranges flag
      r calls hne hov hgap hrej
    unfold edit_pool
    rw [if_pos hne]
    simp only [hov, hgap, Bool.not_true, hrej]
    rfl

/-- Witness for C8 (amended): the reconciliation result of the
counterexample input has no `translation_key`, and `edit_pool` forwards
that failing dictionary unchanged. -/
theorem claim8_witness :
    ((validate_service_pool_changes (fun _ => ⟨false, false⟩) 5
        [⟨0, some 10, 5⟩] [⟨0, some 1, 5⟩] 1 1).1).translation_key = none
  ∧ edit_pool (fun _ => ⟨false, false⟩) 5 1 1 true
        [(1, ⟨0, some 10, 5⟩)] [⟨0, some 1, 5⟩] false
      = (⟨false, some false, some PAST_DATE_ERROR, none⟩, []) := by
  refine ⟨claim8_amended.1 (fun _ => ⟨false, false⟩) 5 [⟨0, some 10, 5⟩]
    [⟨0, some 1, 5⟩] 1 1, ?_⟩
  exact claim8_amended.2 (fun _ => ⟨false, false⟩) 5 1 1 [(1, ⟨0, some 10, 5⟩)]
    [⟨0, some 1, 5⟩] false ⟨false, some false, some PAST_DATE_ERROR, none⟩ []
    (by decide) (by rfl) (by rfl) (by rfl)

/-- C9 counterexample: three pairwise-overlapping proposed ranges
produce three individual overlap findings, but the create and update
endpoints surface only the first finding in their response — the claim
that the caller-facing response surfaces all problems at once is
false. -/
theorem claim9_counterexample :
    (find_overlapping_ranges (convert_pool_date_ranges
        [⟨0, some 10, 1⟩, ⟨5, some 20, 1⟩, ⟨6, some 30, 1⟩])).length = 3
  ∧ create_pool_with_dates [⟨0, some 10, 1⟩, ⟨5, some 20, 1⟩, ⟨6, some 30, 1⟩]
      = ⟨false, none, some (overlap_message (0, 10) (5, 20)),
         some "POOL_DATES_OVERLAPS"⟩
  ∧ edit_pool (fun _ => ⟨false, false⟩) 5 1 1 true []
        [⟨0, some 10, 1⟩, ⟨5, some 20, 1⟩, ⟨6, some 30, 1⟩] false
      = (⟨false, none, some (overlap_message (0, 10) (5, 20)),
          some "POOL_DATES_OVERLAPS"⟩, []) := by
  refine ⟨rfl, rfl, rfl⟩

/-- C9 (amended): the overlap and gap checks return one finding per
problem and empty collections for a well-formed nonempty partition (in
which case no rejection is produced), but the caller-facing
create/update response carries only the first overlap finding (or, when
there is no overlap, the first gap finding) rather than all findings at
once. -/
theorem claim9_amended (date_ranges : List RangeTuple)
    (hne : date_ranges ≠ [])
    (hov : find_overlapping_ranges (convert_pool_date_ranges date_ranges) = [])
    (hgap : check_date_gaps (convert_pool_date_ranges date_ranges) = []) :
    create_pool_with_dates date_ranges
      = ⟨true, none, some DATA_INSERT_SUCCESSFUL, some "DATA_INSERT_SUCCESSFUL"⟩
  ∧ (∀ (dr : List RangeTuple) (m : String) (ms : List String),
      find_overlapping_ranges (convert_pool_date_ranges dr) = m :: ms →
      create_pool_with_dates dr = ⟨false, none, some m, some "POOL_DATES_OVERLAPS"⟩)
  ∧ (∀ (dr : List RangeTuple) (g : String) (gs : List String),
      find_overlapping_ranges (convert_pool_date_ranges dr) = [] →
      check_date_gaps (convert_pool_date_ranges dr) = g :: gs →
      create_pool_with_dates dr = ⟨false, none, some g, some "POOL_DATE_GAPS"⟩) := by
  refine ⟨?_, ?_, ?_⟩
  · simp [create_pool_with_dates, hne, hov, hgap]
  · intro dr m ms h
    have hd : dr ≠ [] := by
      rintro rfl
      simp [convert_pool_date_ranges, find_overlapping_ranges, unordered_pairs] at h
    simp [create_pool_with_dates, hd, h]
  · intro dr g gs h1 h2
    have hd : dr ≠ [] := by
      rintro rfl
      simp [convert_pool_date_ranges, check_date_gaps, sort_by_start, gaps_of_sorted] at h2
    simp [create_pool_with_dates, hd, h1, h2]

/-- Witness for C9 (amended): a contiguous two-range partition passes
both checks and is accepted, while the three-overlap partition of the
counterexample is rejected with exactly the first finding. -/
theorem claim9_witness :
    create_pool_with_dates [⟨0, some 10, 1⟩, ⟨11, some 20, 1⟩]
      = ⟨true, none, some DATA_INSERT_SUCCESSFUL, some "DATA_INSERT_SUCCESSFUL"⟩
  ∧ create_pool_with_dates [⟨0, some 10, 1⟩, ⟨5, some 20, 1⟩, ⟨6, some 30, 1⟩]
      = ⟨false, none, some (overlap_message (0, 10) (5, 20)),
         some "POOL_DATES_OVERLAPS"⟩ := by
  have h := claim9_amended [⟨0, some 10, 1⟩, ⟨11, some 20, 1⟩] (by decide) (by rfl) (by rfl)
  exact ⟨h.1, h.2.1 [⟨0, some 10, 1⟩, ⟨5, some 20, 1⟩, ⟨6, some 30, 1⟩]
    (overlap_message (0, 10) (5, 20))
    [overlap_message (0, 10) (6, 30), overlap_message (5, 20) (6, 30)] (by rfl)⟩

/-- C10: the reconciliation correlates the two partitions positionally
via `zip`, so only the first `min(len(existing), len(proposed))`
positions are examined: proposed tuples beyond the existing list's
length (and removed trailing existing tuples) are invisible to the
validation — appending them changes nothing — and with an empty
existing partition the call accepts any proposal with zero oracle
calls, having inspected none of its tuples. -/
theorem claim10_zip_truncation (oracle : Oracle)
    (current_date pool_id subscriber_id : Nat)
    (existing_ranges date_ranges extra : List RangeTuple)
    (h : existing_ranges.length ≤ date_ranges.length) :
    validate_service_pool_changes oracle current_date existing_ranges
        (date_ranges ++ extra) pool_id subscriber_id
      = validate_service_pool_changes oracle current_date existing_ranges date_ranges
          pool_id subscriber_id
  ∧ validate_service_pool_changes oracle current_date (date_ranges ++ extra)
        existing_ranges pool_id subscriber_id
      = validate_service_pool_changes oracle current_date date_ranges existing_ranges
          pool_id subscriber_id
  ∧ validate_service_pool_changes oracle current_date [] date_ranges
        pool_id subscriber_id = (⟨true, some false, none, none⟩, []) := by
  refine ⟨?_, ?_, ?_⟩
  · unfold validate_service_pool_changes
    rw [zip_left_truncates existing_ranges date_ranges extra h]
  · unfold validate_service_pool_changes
    rw [zip_right_truncates date_ranges existing_ranges extra h]
  · rfl

/-- Witness for C10: a proposed tuple with a past end date but no
positional counterpart is never inspected — the call accepts with zero
oracle calls — and appending a trailing proposed tuple beyond the
existing length changes nothing. -/
theorem claim10_witness :
    validate_service_pool_changes (fun _ => ⟨true, true⟩) 5 [] [⟨0, some 1, 5⟩] 1 1
      = (⟨true, some false, none, none⟩, [])
  ∧ validate_service_pool_changes (fun _ => ⟨true, true⟩) 5 [⟨0, some 10, 5⟩]
        ([⟨0, some 10, 5⟩] ++ [⟨9, some 1, 5⟩]) 1 1
      = validate_service_pool_changes (fun _ => ⟨true, true⟩) 5 [⟨0, some 10, 5⟩]
          [⟨0, some 10, 5⟩] 1 1 := by
  exact ⟨(claim10_zip_truncation (fun _ => ⟨true, true⟩) 5 1 1 [] [⟨0, some 1, 5⟩]
      [] (by decide)).2.2,
    (claim10_zip_truncation (fun _ => ⟨true, true⟩) 5 1 1 [⟨0, some 10, 5⟩]
      [⟨0, some 10, 5⟩] [⟨9, some 1, 5⟩] (by decide)).1⟩

end Sonar
